import Mathlib

/-!
Verification of the conversation-cache and LLM-dispatch subsystem of the
Discordagent_PLANA repository (src/cache_manager.py, src/gemini_provider.py,
src/openai_compatible_provider.py, src/llm_provider.py, src/llm_manager.py,
src/config.py, src/bot_constants.py, src/bot.py, src/command_handler.py),
as a shallow embedding in Lean 4.

Bytes are modelled as natural numbers below 256; Python dict-based "parts"
structures are modelled as closed inductives mirroring the runtime checks the
source performs on them; LLM network calls are modelled as oracle parameters;
the persisted JSON files are modelled as inductives distinguishing a missing
file, an empty file, an unparseable file and a parsed record.
-/

namespace Plana

/-! ## String helpers: Python `needle in haystack` (substring containment) -/

/-- Mirrors checking that the character list `n` is a prefix of `l`. -/
def isPrefixB : List Char → List Char → Bool
  | [], _ => true
  | _ :: _, [] => false
  | a :: as, b :: bs => a == b && isPrefixB as bs

/-- Does the character list `needle` occur contiguously in the second list
(Python substring test on strings). -/
def substrB (needle : List Char) : List Char → Bool
  | [] => isPrefixB needle []
  | h :: t => isPrefixB needle (h :: t) || substrB needle t

/-- Python `needle in hay` on strings. -/
def strContains (hay needle : String) : Bool := substrB needle.data hay.data

/-- Python `s.strip()`: leading and trailing whitespace removed. -/
def pyStrip (s : String) : String :=
  String.mk (((s.data.dropWhile Char.isWhitespace).reverse.dropWhile
    Char.isWhitespace).reverse)

/-- Python `s.capitalize()`: first character uppercased, the rest
lowercased. -/
def pyCapitalize (s : String) : String :=
  match s.data with
  | [] => ""
  | c :: t => String.mk (c.toUpper :: t.map Char.toLower)

/-! ## Base64 (Python `base64.b64encode` / `base64.b64decode`)

The standard alphabet: `A`-`Z`, `a`-`z`, `0`-`9`, `+`, `/`, with `=` padding.
Bytes are naturals `< 256`, sextets naturals `< 64`. -/

/-- Character of the standard base64 alphabet for a sextet value. -/
def b64Char (n : Nat) : Char :=
  if n < 26 then Char.ofNat (65 + n)
  else if n < 52 then Char.ofNat (71 + n)
  else if n < 62 then Char.ofNat (n - 4)
  else if n = 62 then '+' else '/'

/-- Partial inverse of the base64 alphabet (`none` off the alphabet,
in particular on the padding character). -/
def b64Inv (c : Char) : Option Nat :=
  let n := c.toNat
  if 65 ≤ n ∧ n ≤ 90 then some (n - 65)
  else if 97 ≤ n ∧ n ≤ 122 then some (n - 71)
  else if 48 ≤ n ∧ n ≤ 57 then some (n + 4)
  else if c = '+' then some 62
  else if c = '/' then some 63
  else none

/-- Python base64.b64encode: bytes (naturals `< 256`) to base64 characters,
three bytes at a time, padding the final group with `=`. -/
def b64EncodeBytes : List Nat → List Char
  | b0 :: b1 :: b2 :: rest =>
      b64Char (b0 / 4) :: b64Char (b0 % 4 * 16 + b1 / 16) ::
      b64Char (b1 % 16 * 4 + b2 / 64) :: b64Char (b2 % 64) :: b64EncodeBytes rest
  | [b0, b1] => [b64Char (b0 / 4), b64Char (b0 % 4 * 16 + b1 / 16), b64Char (b1 % 16 * 4), '=']
  | [b0] => [b64Char (b0 / 4), b64Char (b0 % 4 * 16), '=', '=']
  | [] => []

/-- Python base64.b64decode: four characters at a time; fails (`none`) on
input whose length is not a multiple of four, on characters outside the
alphabet, or on misplaced padding. -/
def b64DecodeBytes : List Char → Option (List Nat)
  | [] => some []
  | a :: b :: c :: d :: rest =>
      match b64Inv a, b64Inv b with
      | some s1, some s2 =>
        if c = '=' then
          if d = '=' ∧ rest = [] then some [s1 * 4 + s2 / 16] else none
        else
          match b64Inv c with
          | some s3 =>
            if d = '=' then
              if rest = [] then some [s1 * 4 + s2 / 16, s2 % 16 * 16 + s3 / 4] else none
            else
              match b64Inv d with
              | some s4 =>
                  (b64DecodeBytes rest).map
                    (fun bs => (s1 * 4 + s2 / 16) :: (s2 % 16 * 16 + s3 / 4) ::
                               (s3 % 4 * 64 + s4) :: bs)
              | none => none
          | none => none
      | _, _ => none
  | _ => none

/-- Encoding of a byte list as the base64 string written into the cache file
(`base64.b64encode(data).decode('utf-8')`). -/
def b64EncodeStr (bs : List Nat) : String := String.mk (b64EncodeBytes bs)

/-- Decoding of a persisted base64 string (`base64.b64decode(data)`). -/
def b64DecodeStr (s : String) : Option (List Nat) := b64DecodeBytes s.data

/-! ## Data model of conversation turns (src/cache_manager.py)

An in-memory history entry is a Python dict with role and parts keys; each
part is a dict holding either a `text` key, an `inline_data` key whose `data`
is `bytes`, an `inline_data` whose `data` is not `bytes`, or neither key.
The persisted form holds base64 strings in place of bytes. -/

/-- One element of an in-memory `parts` list. -/
inductive RawPart where
  | text (s : String)
  | inlineBytes (mime : String) (data : List Nat)
  | inlineOther (mime : String)
  | other
  deriving DecidableEq, Repr

/-- One element of a persisted `parts` list (after JSON read-back). -/
inductive EncPart where
  | text (s : String)
  | inlineStr (mime : String) (data : String)
  | other
  deriving DecidableEq, Repr

/-- An in-memory history entry. `role` is `none` when the role key is
missing; `parts` is `none` when the parts key is missing or is not a list. -/
structure RawEntry where
  role : Option String
  parts : Option (List RawPart)
  deriving DecidableEq, Repr

/-- A history entry as written by `save_cache` (always has a role string and
a parts list). -/
structure EncEntry where
  role : String
  parts : List EncPart
  deriving DecidableEq, Repr

/-! ## `save_cache` encoding (src/cache_manager.py lines 85-112) -/

/-- Encoding of one part in the `save_cache` loop: `text` is kept,
`inline_data` with `bytes` data is base64-encoded, everything else yields an
empty `encoded_part` that is not appended. -/
def encode_part : RawPart → Option EncPart
  | .text s => some (.text s)
  | .inlineBytes mime data => some (.inlineStr mime (b64EncodeStr data))
  | .inlineOther _ => none
  | .other => none

/-- Encoding of one entry: entries without a parts list are skipped, and an
entry is kept only when it has at least one encoded part and a role key. -/
def encode_entry (e : RawEntry) : Option EncEntry :=
  match e.parts with
  | none => none
  | some ps =>
      let eps := ps.filterMap encode_part
      match e.role with
      | some r => if eps.isEmpty then none else some ⟨r, eps⟩
      | none => none

/-- The encoded history written to the cache file. -/
def encode_history (history : List RawEntry) : List EncEntry :=
  history.filterMap encode_entry

/-! ## `load_cache` decoding (src/cache_manager.py lines 37-59) -/

/-- Decoding of one persisted part in the `load_cache` loop: `text` is kept,
`inline_data` string data is base64-decoded; a part whose decode fails is
skipped (`continue`), and a part with neither key yields an empty
`decoded_part` that is not appended. -/
def decode_part : EncPart → Option RawPart
  | .text s => some (.text s)
  | .inlineStr mime data => (b64DecodeStr data).map (RawPart.inlineBytes mime)
  | .other => none

/-- Decoded parts list of one entry: exactly the parts that decode. -/
def decoded_parts (ps : List EncPart) : List RawPart := ps.filterMap decode_part

/-- The in-memory entry produced by `load_cache` from a persisted entry. -/
def load_entry (e : EncEntry) : RawEntry :=
  ⟨some e.role, some (decoded_parts e.parts)⟩

/-! ## `save_cache` trimming (src/cache_manager.py lines 74-83)

`num_entries_to_keep = config.CACHE_LIMIT * 2`. When the input history
exceeds it, the oldest `len - keep` entries are handed to
`update_deep_cache` and only the newest `keep` entries are encoded and
persisted. The cache limit is kept as an explicit parameter standing for
`config.CACHE_LIMIT`. -/

/-- config.py line 66: `CACHE_LIMIT: int = 10`. -/
def CACHE_LIMIT : Nat := 10

/-- Result of one `save_cache` call: the persisted window and the old history
handed to `update_deep_cache` (empty when no trim happened). -/
structure SaveResult where
  window : List EncEntry
  handed : List RawEntry
  deriving DecidableEq, Repr

/-- Embedding of `save_cache(channel_id, history)` with `config.CACHE_LIMIT =
cacheLimit`: on overflow `history[:-keep]` goes to the Deep Cache update and
`history[-keep:]` is encoded and persisted. -/
def save_cache (cacheLimit : Nat) (history : List RawEntry) : SaveResult :=
  let keep := cacheLimit * 2
  if history.length > keep then
    { window := encode_history (history.drop (history.length - keep)),
      handed := history.take (history.length - keep) }
  else
    { window := encode_history history, handed := [] }

/-- One append-and-save step of the caller (src/command_handler.py lines
417-480): load the persisted window, append the new turns, save. -/
def append_and_save (cacheLimit : Nat) (window : List EncEntry)
    (newTurns : List RawEntry) : SaveResult :=
  save_cache cacheLimit (window.map load_entry ++ newTurns)

/-- The persisted windows after each operation of a sequence of
append-and-save operations on one conversation id. -/
def windows_after (cacheLimit : Nat) (w0 : List EncEntry) :
    List (List RawEntry) → List (List EncEntry)
  | [] => []
  | ts :: rest =>
      (append_and_save cacheLimit w0 ts).window ::
        windows_after cacheLimit ((append_and_save cacheLimit w0 ts).window) rest

/-! ## Validity of turns (spec §3: a Turn has a role and nonempty parts, each
part a text or a binary blob) -/

/-- A part that the spec's data model admits: a text or a byte blob. -/
def valid_part : RawPart → Bool
  | .text _ => true
  | .inlineBytes _ data => data.all (fun b => decide (b < 256))
  | _ => false

/-- A spec-conformant turn: present role, present nonempty parts list, every
part valid. -/
def valid_entry (e : RawEntry) : Bool :=
  match e.role, e.parts with
  | some _, some ps => !ps.isEmpty && ps.all valid_part
  | _, _ => false

/-! ## The persisted cache file and `load_cache` (src/cache_manager.py
lines 28-67)

A cache file is missing, empty, unparseable JSON, or a parsed entry list. -/

/-- State of the per-channel rolling-window file. -/
inductive CacheFile where
  | absent
  | empty
  | corrupt
  | stored (entries : List EncEntry)
  deriving DecidableEq, Repr

/-- The body of `load_cache` guarded by try/except: reading and JSON-parsing
the file either yields `none` (empty content), a parsed entry list, or a
raised `json.JSONDecodeError`. -/
def read_and_parse : CacheFile → Except String (Option (List EncEntry))
  | .absent => .error "FileNotFoundError"
  | .empty => .ok none
  | .corrupt => .error "json.JSONDecodeError: Expecting value"
  | .stored es => .ok (some es)

/-- Embedding of `load_cache(channel_id)`: returns the decoded history and
the file state afterwards. A missing file yields the empty list; a parse
error is caught, the corrupt record is overwritten with `save_cache(id, [])`
(an empty list persisted) and the empty list is returned. -/
def load_cache (f : CacheFile) : List RawEntry × CacheFile :=
  if f = .absent then ([], f)
  else
    match read_and_parse f with
    | .ok none => ([], f)
    | .ok (some es) => (es.map load_entry, f)
    | .error _ => ([], .stored [])

/-- Embedding of `reset_cache(channel_id)` (src/bot.py lines 300-307): the
cache file is deleted if it exists. -/
def reset_cache : CacheFile → CacheFile := fun _ => .absent

/-! ## The Deep Cache file (src/cache_manager.py lines 125-153) -/

/-- State of the per-channel Deep Cache file. The stored record is a JSON
object whose summary field may be missing (`none`). -/
inductive DeepFile where
  | absent
  | empty
  | corrupt
  | stored (summary : Option String)
  deriving DecidableEq, Repr

/-- Embedding of `save_deep_cache(channel_id, summary)`: writes
`{"summary": summary if summary else ""}`. -/
def save_deep_cache (summary : Option String) : DeepFile :=
  .stored (some (summary.getD ""))

/-- Embedding of `load_deep_cache(channel_id)`: returns the summary field and
the file state afterwards; a missing or empty file yields `none`; a parse
error is caught and the corrupt record is overwritten via
`save_deep_cache(channel_id, None)`. -/
def load_deep_cache : DeepFile → Option String × DeepFile
  | .absent => (none, .absent)
  | .empty => (none, .empty)
  | .corrupt => (none, save_deep_cache none)
  | .stored s => (s, .stored s)

/-- The reset operation on one conversation: `reset_cache` on the rolling
window (src/bot.py) together with `save_deep_cache(channel_id, None)`
(the `!cclear` handler, src/command_handler.py lines 158-163). -/
def reset_conversation : CacheFile × DeepFile → CacheFile × DeepFile :=
  fun st => (reset_cache st.1, save_deep_cache none)

/-- Python truthiness of an optional summary string, as used by every
consumer (`if deep_cache_summary:` and `if existing_summary and ...`). -/
def summary_truthy : Option String → Bool
  | none => false
  | some t => !(t == "")

/-! ## Error-message classification (src/bot_constants.py and
src/llm_provider.py lines 87-116) -/

def ERROR_MSG_MAX_TEXT_SIZE : String := ":warning: 最大文字数制限を超過しました。"

def ERROR_MSG_MAX_IMAGE_SIZE : String := ":warning: 画像数が多すぎます。"

def ERROR_MSG_IMAGE_READ_FAIL : String := ":warning: 画像を読み込めませんでした。"

def ERROR_MSG_ATTACHMENT_UNSUPPORTED : String := ":warning: 対応していないファイル形式です。"

def ERROR_MSG_GEMINI_API_ERROR : String := "接続エラー。APIとの通信に失敗しました。"

def ERROR_MSG_GEMINI_INVALID_ARG : String := "リクエストエラー。送信データに問題があるようです。"

def ERROR_MSG_GEMINI_RESOURCE_EXHAUSTED : String := "APIリミット超過。しばらく待ってから再試行してください。"

def ERROR_MSG_GEMINI_BLOCKED_PROMPT : String := "送信ブロック。入力内容が不適切と判断されました。"

def ERROR_MSG_GEMINI_BLOCKED_RESPONSE : String := "応答ブロック。生成内容が不適切と判断されました。"

def ERROR_MSG_GEMINI_UNKNOWN : String := "不明なエラー。応答の生成に失敗しました。"

def ERROR_MSG_INTERNAL : String := "内部エラー。処理中に問題が発生しました。"

def ERROR_MSG_PERMISSION_DENIED : String := "権限不足。操作を実行できませんでした。"

def ERROR_MSG_HISTORY_READ_FAIL : String := "履歴取得エラー。チャンネル履歴の読み込みに失敗しました。"

def ERROR_MSG_LOWLOAD_UNAVAILABLE : String := "機能制限。関連機能に必要なモデルが利用できません。"

def ERROR_MSG_DEEP_CACHE_FAIL : String := "長期記憶エラー。情報の処理に失敗しました。"

def ERROR_MSG_COMMAND_FORMAT : String := "コマンド形式が不正です。"

def ERROR_MSG_POLL_INVALID : String := "投票の形式が不正です。質問と2～10個の選択肢が必要です。"

def ERROR_MSG_TIMER_INVALID : String := "タイマーの形式が不正です。時間(分)と内容を指定してください。"

def ERROR_MSG_NO_CONTENT : String := "送信する内容がありません。"

def ERROR_MSG_FILE_SIZE_LIMIT : String := ":warning: ファイルサイズが大きすぎます。"

def ERROR_MSG_BUTTON_ERROR : String := ":warning: ボタンの処理中にエラーが発生しました。"

def ERROR_MSG_CHANNEL_ERROR : String := ":warning: チャンネル情報の取得に失敗しました。"

/-- The `error_keywords` list of `LLMProvider._is_error_message`
(src/llm_provider.py lines 89-114): the fixed error-message templates plus
generic bare keywords. -/
def error_keywords : List String :=
  [ERROR_MSG_MAX_TEXT_SIZE, ERROR_MSG_MAX_IMAGE_SIZE, ERROR_MSG_IMAGE_READ_FAIL,
   ERROR_MSG_ATTACHMENT_UNSUPPORTED, ERROR_MSG_GEMINI_API_ERROR,
   ERROR_MSG_GEMINI_INVALID_ARG, ERROR_MSG_GEMINI_RESOURCE_EXHAUSTED,
   ERROR_MSG_GEMINI_BLOCKED_PROMPT, ERROR_MSG_GEMINI_BLOCKED_RESPONSE,
   ERROR_MSG_GEMINI_UNKNOWN, ERROR_MSG_INTERNAL, ERROR_MSG_PERMISSION_DENIED,
   ERROR_MSG_HISTORY_READ_FAIL, ERROR_MSG_LOWLOAD_UNAVAILABLE,
   ERROR_MSG_DEEP_CACHE_FAIL, ERROR_MSG_COMMAND_FORMAT, ERROR_MSG_POLL_INVALID,
   ERROR_MSG_TIMER_INVALID, ERROR_MSG_NO_CONTENT, ERROR_MSG_FILE_SIZE_LIMIT,
   ERROR_MSG_BUTTON_ERROR, ERROR_MSG_CHANNEL_ERROR,
   "Error", "Failed", "Block", "Limit", "Problem", "Cannot", "Invalid",
   "Rate", "Access", "Permission", "Unavailable", "Connection", "Unsupported"]

/-- Embedding of `LLMProvider._is_error_message(text)`: the text is
classified as an error message iff some keyword occurs in it as a
substring. -/
def is_error_message (t : String) : Bool :=
  error_keywords.any (fun k => strContains t k)

/-! ## Dispatch with fallback (src/gemini_provider.py lines 343-410 and
src/openai_compatible_provider.py lines 228-311)

A model call either returns a text (which may itself be a formatted error
message), or raises an exception; `rateLimit` records the provider's
`is_rate_limit_error` verdict on the exception and `formatted` the message
produced by `format_error_message` for it. The network is abstracted: the
dispatcher is given the outcome of the primary call and of the secondary
call, and reports the list of models actually called together with the
returned `(model_name, text)` pair. -/

/-- Outcome of one underlying model call. -/
inductive CallOutcome where
  | ret (text : String)
  | exn (rateLimit : Bool) (formatted : String)
  deriving DecidableEq, Repr

/-- The surface text of a call outcome as the dispatcher reports it. -/
def outcome_text : CallOutcome → String
  | .ret t => t
  | .exn _ m => m

/-- The primary/secondary model names held by a provider. -/
structure ProviderModels where
  primary : Option String
  secondary : Option String
  deriving DecidableEq, Repr

/-- Secondary-model attempt of `GeminiProvider.generate_response` (lines
387-410): the secondary result, success or error, is returned verbatim; with
no secondary model a generic API-error message is produced from the detail
string `"Primary model failed and no secondary model available."`. -/
def gemini_try_secondary (cfg : ProviderModels) (calls : List String)
    (sOut : CallOutcome) : List String × (String × String) :=
  match cfg.secondary with
  | some s => (calls ++ [s], (s, outcome_text sOut))
  | none =>
      (calls, (cfg.primary.getD "No Model",
        ERROR_MSG_GEMINI_API_ERROR ++ " (" ++
          ("Primary model failed and no secondary model available.".take 50) ++ "...)"))

/-- Embedding of `GeminiProvider.generate_response` (lines 343-410). A
returned text that is not classified as an error is a success; an error text
containing the rate-limit template falls back to the secondary; any other
error text is returned as-is. A raised exception falls back iff
`is_rate_limit_error` holds of it, else its formatted message is returned. -/
def gemini_generate_response (cfg : ProviderModels) (pOut sOut : CallOutcome) :
    List String × (String × String) :=
  match cfg.primary with
  | some p =>
      match pOut with
      | .ret t =>
          if !(is_error_message t) then ([p], (p, t))
          else if strContains t ERROR_MSG_GEMINI_RESOURCE_EXHAUSTED then
            gemini_try_secondary cfg [p] sOut
          else ([p], (p, t))
      | .exn rl m =>
          if !rl then ([p], (p, m))
          else gemini_try_secondary cfg [p] sOut
  | none => gemini_try_secondary cfg [] sOut

/-- Secondary-model attempt of `OpenAICompatibleProvider.generate_response`
(lines 274-311): the secondary result, success or error, is returned
verbatim; with no secondary model an internal-error message is returned under
the primary model name. -/
def openai_try_secondary (cfg : ProviderModels) (calls : List String)
    (sOut : CallOutcome) : List String × (String × String) :=
  match cfg.secondary with
  | some s => (calls ++ [s], (s, outcome_text sOut))
  | none => (calls, (cfg.primary.getD "N/A", ERROR_MSG_INTERNAL))

/-- Embedding of `OpenAICompatibleProvider.generate_response` (lines
228-311). `_call_openai_api` re-raises every API exception, so a returned
text (success or formatted non-raising error) is passed through verbatim; a
raised exception falls back iff it is a rate-limit error AND a secondary
model is configured AND the secondary differs from the primary. -/
def openai_generate_response (cfg : ProviderModels) (pOut sOut : CallOutcome) :
    List String × (String × String) :=
  match cfg.primary with
  | some p =>
      match pOut with
      | .ret t => ([p], (p, t))
      | .exn rl m =>
          if rl && cfg.secondary.isSome && !(cfg.secondary == some p) then
            openai_try_secondary cfg [p] sOut
          else ([p], (p, m))
  | none => openai_try_secondary cfg [] sOut

/-- Embedding of the lowload generation path
(`GeminiProvider.generate_lowload_response`, lines 414-448): when the
underlying call returns a text classified as an error message the result is
`None`; a successful text is stripped; an exception yields `None`. -/
def generate_lowload_response : CallOutcome → Option String
  | .ret t => if is_error_message t then none else some (pyStrip t)
  | .exn _ _ => none

/-! ## Deep Cache compaction (src/cache_manager.py lines 155-237) -/

/-- Embedding of the per-entry line built by `_format_history_for_prompt`:
the role (capitalized, `unknown` when missing), the joined text parts and
attachment markers, truncated at 500 characters; entries without a parts
list or with blank content produce no line. -/
def format_entry_line (e : RawEntry) : Option String :=
  match e.parts with
  | none => none
  | some ps =>
      let role := pyCapitalize (e.role.getD "unknown")
      let tps := ps.filterMap (fun p =>
        match p with
        | .text s => some s
        | .inlineBytes m _ => some ("[" ++ m ++ " 添付]")
        | .inlineOther m => some ("[" ++ m ++ " 添付]")
        | .other => none)
      let content := pyStrip (String.intercalate " " tps)
      if content == "" then none
      else
        some (role ++ ": " ++
          (if content.length > 500 then content.take 500 ++ "..." else content))

/-- Embedding of `_format_history_for_prompt` (lines 155-176). -/
def format_history_for_prompt (history : List RawEntry) : String :=
  String.intercalate "\n" (history.filterMap format_entry_line)

/-- config.py `DEEP_CACHE_EXTRACT_PROMPT` with `history_text` substituted. -/
def extract_prompt (history_text : String) : String :=
  "\n以下の会話履歴から、今後の会話の文脈として重要となりそうな事実、キーポイント、設定、ユーザーの好みなどを簡潔に抽出してください。箇条書きで記述してください。抽出する情報がない場合は「抽出情報なし」とだけ出力してください。\n\n--- 会話履歴 ---\n"
  ++ history_text ++ "\n--- ここまで ---\n\n抽出結果:\n"

/-- config.py `DEEP_CACHE_MERGE_PROMPT` with `existing_summary` and
`new_summary` substituted. -/
def merge_prompt (existing_summary new_summary : String) : String :=
  "\n以下の「既存の要約」と「新しい情報」を統合し、重複を排除し、関連情報をまとめ、一つの簡潔な要約を作成してください。箇条書き形式を維持してください。\n\n--- 既存の要約 ---\n"
  ++ existing_summary ++ "\n--- ここまで ---\n\n--- 新しい情報 ---\n"
  ++ new_summary ++ "\n--- ここまで ---\n\n統合後の要約:\n"

/-- Embedding of `update_deep_cache(channel_id, old_history)` (lines
178-237), with the lowload LLM abstracted as `oracle` (the result of
`llm_manager.generate_lowload_response` on each prompt). Returns the Deep
Cache file state after the run. `str(raw) if raw else ""` collapses a `None`
or empty result to the empty string. -/
def update_deep_cache (oracle : String → Option String) (deep : DeepFile)
    (old_history : List RawEntry) : DeepFile :=
  let history_text := format_history_for_prompt old_history
  if pyStrip history_text == "" then deep
  else
    let extracted := (oracle (extract_prompt history_text)).getD ""
    if pyStrip extracted == "" || strContains extracted "抽出情報なし" ||
        is_error_message extracted then deep
    else
      let loaded := load_deep_cache deep
      let existing := loaded.1
      match existing with
      | some t =>
          if !(t == "") && !(pyStrip t == "") then
            let merged := (oracle (merge_prompt t extracted)).getD ""
            if !(pyStrip merged == "") && !(is_error_message merged) then
              save_deep_cache (some merged)
            else save_deep_cache (some extracted)
          else save_deep_cache (some extracted)
      | none => save_deep_cache (some extracted)

/-! ## Cache update after a dispatch (src/command_handler.py lines 436-481) -/

/-- Embedding of step 6 of the message handler: the new user turn and model
turn are appended and saved only when the response text is not classified as
an error message and the user entry parts are nonempty (`none` = the cache
file is left untouched). -/
def update_cache_after_response (cacheLimit : Nat) (chat_history : List RawEntry)
    (user_parts : List RawPart) (response_text : String) : Option SaveResult :=
  if is_error_message response_text then none
  else if user_parts.isEmpty then none
  else
    some (save_cache cacheLimit (chat_history ++
      (⟨some "user", some user_parts⟩ ::
        (if response_text == "" then []
         else [⟨some "model", some [RawPart.text response_text]⟩]))))

/-! ## Gemini request assembly (src/gemini_provider.py lines 143-227) -/

/-- One part of a Gemini API content block. -/
inductive GPart where
  | text (s : String)
  | blob (mime : String) (data : List Nat)
  deriving DecidableEq, Repr

/-- One Gemini API content block. -/
structure GContent where
  role : String
  parts : List GPart
  deriving DecidableEq, Repr

/-- Conversion of the chat history into Gemini content blocks (lines
153-169): entries with a falsy role or falsy parts are skipped; text parts
and byte blobs are converted; an entry whose converted part list is empty is
skipped. -/
def history_to_gemini (chat_history : List RawEntry) : List GContent :=
  chat_history.filterMap (fun e =>
    match e.role, e.parts with
    | some r, some ps =>
        if r == "" || ps.isEmpty then none
        else
          let gps := ps.filterMap (fun p =>
            match p with
            | .text s => some (GPart.text s)
            | .inlineBytes m d => some (GPart.blob m d)
            | _ => none)
          if gps.isEmpty then none else some ⟨r, gps⟩
    | _, _ => none)

/-- The Deep Cache section marker inserted before the summary. -/
def DEEP_CACHE_MARKER : String := "【長期記憶からの参考情報】\n"

/-- Embedding of `GeminiProvider._prepare_gemini_contents` (lines 143-227):
the history content blocks come first, and one final user content block
concatenates the system prompt, the marked Deep Cache summary and the new
text parts into a single text part, followed by the new image parts. -/
def prepare_gemini_contents (system_prompt : String) (content_parts : List RawPart)
    (chat_history : List RawEntry) (deep_cache_summary : Option String)
    (include_system_prompt : Bool) : List GContent :=
  let history_contents := history_to_gemini chat_history
  let t0 := if include_system_prompt && !(system_prompt == "") then system_prompt else ""
  let t1 :=
    match deep_cache_summary with
    | some s =>
        if s == "" then t0
        else (if t0 == "" then "" else t0 ++ "\n\n") ++ DEEP_CACHE_MARKER ++ s
    | none => t0
  let current_texts := content_parts.filterMap (fun p =>
    match p with | .text s => some s | _ => none)
  let t2 :=
    if current_texts.isEmpty then t1
    else (if t1 == "" then "" else t1 ++ "\n\n") ++ String.intercalate "\n" current_texts
  let images := content_parts.filterMap (fun p =>
    match p with | .inlineBytes m d => some (GPart.blob m d) | _ => none)
  let last_user_parts := (if t2 == "" then [] else [GPart.text t2]) ++ images
  history_contents ++ (if last_user_parts.isEmpty then [] else [⟨"user", last_user_parts⟩])

/-- Whether a content block mentions the given text in one of its text
parts. -/
def content_mentions (c : GContent) (needle : String) : Bool :=
  c.parts.any (fun p =>
    match p with | .text s => strContains s needle | .blob _ _ => false)

/-! ## OpenAI-compatible request assembly
(src/openai_compatible_provider.py lines 99-173)

The dispatchers above abstract the assembled context away, which suffices for
the call-count and result claims; the per-call context is modelled here to
settle whether the secondary call receives the same assembled context as the
primary call. -/

/-- Python `s.lower()`. -/
def pyLower (s : String) : String := String.mk (s.data.map Char.toLower)

/-- Embedding of `OpenAICompatibleProvider._is_vision_model` (lines 99-102):
a model is vision-capable iff its lowercased name contains one of the
keywords `vision`, `pixtral`. -/
def is_vision_model (name : Option String) : Bool :=
  match name with
  | none => false
  | some n => strContains (pyLower n) "vision" || strContains (pyLower n) "pixtral"

/-- One element of the content list of the final user message: a text part
or a base64 data-URI image part. -/
inductive OAIContentItem where
  | text (s : String)
  | imageUrl (url : String)
  deriving DecidableEq, Repr

/-- One OpenAI-compatible chat message: a plain-string message (system,
summary, history) or the final user message with a content list. -/
inductive OAIMessage where
  | plain (role : String) (content : String)
  | multi (role : String) (content : List OAIContentItem)
  deriving DecidableEq, Repr

/-- Embedding of `_convert_history_to_openai_chat` (lines 105-173): system
prompt first, then the marked Deep Cache summary as a user message, then the
history entries (model mapped to assistant; text parts joined and stripped;
blank entries skipped), then the new content parts as one user message whose
image parts are base64 data URIs — included only when the target model is
vision-capable. -/
def convert_history_to_openai_chat (system_prompt : String)
    (content_parts : List RawPart) (chat_history : List RawEntry)
    (deep_cache_summary : Option String) (target_model_is_vision : Bool) :
    List OAIMessage :=
  let sys := if system_prompt == "" then []
             else [OAIMessage.plain "system" system_prompt]
  let dc := match deep_cache_summary with
    | some s =>
        if s == "" then []
        else [OAIMessage.plain "user" ("【長期記憶からの参考情報】\n" ++ s)]
    | none => []
  let hist := chat_history.filterMap (fun e =>
    match e.role, e.parts with
    | some r, some ps =>
        if r == "" || ps.isEmpty then none
        else
          let role := if r == "model" then "assistant" else "user"
          let txt := pyStrip (String.intercalate " " (ps.filterMap (fun q =>
            match q with | RawPart.text s => some s | _ => none)))
          if txt == "" then none else some (OAIMessage.plain role txt)
    | _, _ => none)
  let current := content_parts.filterMap (fun q =>
    match q with
    | RawPart.text s => some (OAIContentItem.text s)
    | RawPart.inlineBytes m d =>
        if target_model_is_vision then
          some (OAIContentItem.imageUrl ("data:" ++ m ++ ";base64," ++ b64EncodeStr d))
        else none
    | _ => none)
  sys ++ dc ++ hist ++ (if current.isEmpty then [] else [OAIMessage.multi "user" current])

/-- Python `any("inline_data" in part for part in content_parts)` (line
283): true iff some part carries the `inline_data` key, bytes or not. -/
def has_inline_data (content_parts : List RawPart) : Bool :=
  content_parts.any (fun q =>
    match q with
    | RawPart.inlineBytes _ _ => true
    | RawPart.inlineOther _ => true
    | _ => false)

/-- The calls made by `GeminiProvider.generate_response`, with the assembled
context of each: both the primary call (lines 353-360) and the secondary
call (lines 393-399) pass the same `content_parts`, `chat_history` and
`deep_cache_summary` to `_generate_content_internal`, which assembles them
with `_prepare_gemini_contents`. -/
def gemini_dispatch_calls (system_prompt : String) (content_parts : List RawPart)
    (chat_history : List RawEntry) (deep_cache_summary : Option String)
    (cfg : ProviderModels) (pOut : CallOutcome) : List (String × List GContent) :=
  let contents := prepare_gemini_contents system_prompt content_parts
    chat_history deep_cache_summary true
  match cfg.primary with
  | some p =>
      match pOut with
      | .ret t =>
          if !(is_error_message t) then [(p, contents)]
          else if strContains t ERROR_MSG_GEMINI_RESOURCE_EXHAUSTED then
            match cfg.secondary with
            | some s => [(p, contents), (s, contents)]
            | none => [(p, contents)]
          else [(p, contents)]
      | .exn rl _ =>
          if !rl then [(p, contents)]
          else
            match cfg.secondary with
            | some s => [(p, contents), (s, contents)]
            | none => [(p, contents)]
  | none =>
      match cfg.secondary with
      | some s => [(s, contents)]
      | none => []

/-- The calls made by `OpenAICompatibleProvider.generate_response`, with the
message list of each (lines 242-306): the primary call uses the conversion
for the primary model's vision capability; on fallback, when the content
parts carry `inline_data` and the secondary model is not vision-capable, the
messages are re-converted with images stripped (lines 279-298), otherwise
the primary's message list is reused. -/
def openai_dispatch_calls (system_prompt : String) (content_parts : List RawPart)
    (chat_history : List RawEntry) (deep_cache_summary : Option String)
    (cfg : ProviderModels) (pOut : CallOutcome) : List (String × List OAIMessage) :=
  let api_messages := convert_history_to_openai_chat system_prompt content_parts
    chat_history deep_cache_summary (is_vision_model cfg.primary)
  let secondary_api_messages :=
    if has_inline_data content_parts && !(is_vision_model cfg.secondary) then
      convert_history_to_openai_chat system_prompt content_parts
        chat_history deep_cache_summary false
    else api_messages
  match cfg.primary with
  | some p =>
      match pOut with
      | .ret _ => [(p, api_messages)]
      | .exn rl _ =>
          if rl && cfg.secondary.isSome && !(cfg.secondary == some p) then
            match cfg.secondary with
            | some s => [(p, api_messages), (s, secondary_api_messages)]
            | none => [(p, api_messages)]
          else [(p, api_messages)]
  | none =>
      match cfg.secondary with
      | some s => [(s, secondary_api_messages)]
      | none => []

/-! ## Helper lemmas -/

theorem isPrefixB_self_append (n r : List Char) : isPrefixB n (n ++ r) = true := by
  induction n with
  | nil => rfl
  | cons a as ih => simp [isPrefixB, ih]

theorem substrB_of_isPrefixB (n l : List Char) (h : isPrefixB n l = true) :
    substrB n l = true := by
  cases l with
  | nil => simpa [substrB] using h
  | cons a t => simp [substrB, h]

theorem substrB_cons_of (n : List Char) (c : Char) (t : List Char)
    (ht : substrB n t = true) : substrB n (c :: t) = true := by
  simp [substrB, ht]

theorem substrB_of_middle (n pre post : List Char) :
    substrB n (pre ++ n ++ post) = true := by
  induction pre with
  | nil =>
      simp only [List.nil_append]
      exact substrB_of_isPrefixB _ _ (isPrefixB_self_append n post)
  | cons c t ih =>
      have he : (c :: t) ++ n ++ post = c :: (t ++ n ++ post) := by simp
      rw [he]
      exact substrB_cons_of _ _ _ ih

theorem strContains_of_concat (a s b : String) :
    strContains (a ++ s ++ b) s = true := by
  have : (a ++ s ++ b).data = a.data ++ s.data ++ b.data := by
    simp [String.data_append]
  rw [strContains, this]
  exact substrB_of_middle s.data a.data b.data

theorem b64Inv_b64Char : ∀ n : Fin 64, b64Inv (b64Char n.val) = some n.val := by
  decide

theorem b64Inv_b64Char_of_lt {n : Nat} (h : n < 64) : b64Inv (b64Char n) = some n :=
  b64Inv_b64Char ⟨n, h⟩

theorem b64Char_ne_eq {n : Nat} (h : n < 64) : b64Char n ≠ '=' := by
  intro he
  have h1 := b64Inv_b64Char_of_lt h
  rw [he] at h1
  simp [b64Inv] at h1

theorem b64_roundtrip : ∀ bs : List Nat, (∀ b ∈ bs, b < 256) →
    b64DecodeBytes (b64EncodeBytes bs) = some bs
  | [], _ => by simp [b64EncodeBytes, b64DecodeBytes]
  | [b0], h => by
      have hb0 : b0 < 256 := h b0 (by simp)
      have h1 : b0 / 4 < 64 := by omega
      have h2 : b0 % 4 * 16 < 64 := by omega
      simp only [b64EncodeBytes, b64DecodeBytes,
        b64Inv_b64Char_of_lt h1, b64Inv_b64Char_of_lt h2]
      simp
      omega
  | [b0, b1], h => by
      have hb0 : b0 < 256 := h b0 (by simp)
      have hb1 : b1 < 256 := h b1 (by simp)
      have h1 : b0 / 4 < 64 := by omega
      have h2 : b0 % 4 * 16 + b1 / 16 < 64 := by omega
      have h3 : b1 % 16 * 4 < 64 := by omega
      simp only [b64EncodeBytes, b64DecodeBytes,
        b64Inv_b64Char_of_lt h1, b64Inv_b64Char_of_lt h2, b64Inv_b64Char_of_lt h3]
      rw [if_neg (b64Char_ne_eq h3)]
      simp
      omega
  | b0 :: b1 :: b2 :: rest, h => by
      have hb0 : b0 < 256 := h b0 (by simp)
      have hb1 : b1 < 256 := h b1 (by simp)
      have hb2 : b2 < 256 := h b2 (by simp)
      have hrest : ∀ b ∈ rest, b < 256 := fun b hb => h b (by simp [hb])
      have h1 : b0 / 4 < 64 := by omega
      have h2 : b0 % 4 * 16 + b1 / 16 < 64 := by omega
      have h3 : b1 % 16 * 4 + b2 / 64 < 64 := by omega
      have h4 : b2 % 64 < 64 := by omega
      have ih := b64_roundtrip rest hrest
      simp only [b64EncodeBytes, b64DecodeBytes,
        b64Inv_b64Char_of_lt h1, b64Inv_b64Char_of_lt h2,
        b64Inv_b64Char_of_lt h3, b64Inv_b64Char_of_lt h4]
      rw [if_neg (b64Char_ne_eq h3), if_neg (b64Char_ne_eq h4), ih]
      simp
      omega

theorem b64Str_roundtrip (bs : List Nat) (h : ∀ b ∈ bs, b < 256) :
    b64DecodeStr (b64EncodeStr bs) = some bs := by
  simpa [b64DecodeStr, b64EncodeStr] using b64_roundtrip bs h

theorem part_roundtrip (p : RawPart) (hv : valid_part p = true) :
    (encode_part p).bind decode_part = some p := by
  cases p with
  | text s => rfl
  | inlineBytes mime data =>
      have hb : ∀ b ∈ data, b < 256 := by
        intro b hb
        have := (List.all_eq_true.mp hv) b hb
        simpa using this
      simp [encode_part, decode_part, b64Str_roundtrip data hb]
  | inlineOther mime => simp [valid_part] at hv
  | other => simp [valid_part] at hv

theorem decoded_filterMap_encode (ps : List RawPart)
    (hall : ∀ p ∈ ps, valid_part p = true) :
    decoded_parts (ps.filterMap encode_part) = ps := by
  induction ps with
  | nil => rfl
  | cons p t ih =>
      have hvp := hall p (by simp)
      have hrt := part_roundtrip p hvp
      cases he : encode_part p with
      | none => rw [he] at hrt; simp at hrt
      | some ep =>
          rw [he] at hrt
          simp only [Option.some_bind] at hrt
          have iht := ih (fun q hq => hall q (by simp [hq]))
          unfold decoded_parts at *
          simp [List.filterMap_cons, he, hrt, iht]

theorem entry_roundtrip (e : RawEntry) (hv : valid_entry e = true) :
    (encode_entry e).map load_entry = some e := by
  obtain ⟨role, parts⟩ := e
  cases role with
  | none => cases parts <;> simp [valid_entry] at hv
  | some r =>
      cases parts with
      | none => simp [valid_entry] at hv
      | some ps =>
          simp only [valid_entry, Bool.and_eq_true, Bool.not_eq_true'] at hv
          obtain ⟨hne, hall⟩ := hv
          have hall' : ∀ p ∈ ps, valid_part p = true := List.all_eq_true.mp hall
          have hdec := decoded_filterMap_encode ps hall'
          have hempty : (ps.filterMap encode_part).isEmpty = false := by
            cases ps with
            | nil => simp at hne
            | cons p t =>
                have hvp := hall' p (by simp)
                have hrt := part_roundtrip p hvp
                cases he : encode_part p with
                | none => rw [he] at hrt; simp at hrt
                | some ep => simp [List.filterMap_cons, he]
          simp [encode_entry, hempty, load_entry, hdec]

theorem history_roundtrip (l : List RawEntry) (hv : ∀ e ∈ l, valid_entry e = true) :
    (encode_history l).map load_entry = l := by
  induction l with
  | nil => rfl
  | cons e t ih =>
      have hve := hv e (by simp)
      have hrt := entry_roundtrip e hve
      cases he : encode_entry e with
      | none => rw [he] at hrt; simp at hrt
      | some ee =>
          rw [he] at hrt
          simp only [Option.map_some'] at hrt
          have iht := ih (fun q hq => hv q (by simp [hq]))
          unfold encode_history at *
          simp only [List.filterMap_cons, he, List.map_cons]
          rw [iht]
          simp only [Option.some.injEq] at hrt
          rw [hrt]

theorem encode_history_length_le (l : List RawEntry) :
    (encode_history l).length ≤ l.length :=
  List.length_filterMap_le encode_entry l

theorem save_cache_window_eq (cacheLimit : Nat) (history : List RawEntry) :
    (save_cache cacheLimit history).window =
      encode_history (history.drop (history.length - cacheLimit * 2)) := by
  by_cases h : history.length > cacheLimit * 2
  · simp [save_cache, h]
  · have h0 : history.length - cacheLimit * 2 = 0 := by omega
    simp [save_cache, h, h0]

theorem save_cache_window_length_le (cacheLimit : Nat) (history : List RawEntry) :
    (save_cache cacheLimit history).window.length ≤ cacheLimit * 2 := by
  rw [save_cache_window_eq]
  calc (encode_history (history.drop (history.length - cacheLimit * 2))).length
      ≤ (history.drop (history.length - cacheLimit * 2)).length :=
        encode_history_length_le _
    _ ≤ cacheLimit * 2 := by rw [List.length_drop]; omega

theorem save_cache_handed_eq (cacheLimit : Nat) (history : List RawEntry)
    (h : history.length > cacheLimit * 2) :
    (save_cache cacheLimit history).handed =
      history.take (history.length - cacheLimit * 2) := by
  simp [save_cache, h]

theorem mem_windows_after_length_le (cacheLimit : Nat) :
    ∀ (ops : List (List RawEntry)) (w0 w : List EncEntry),
      w ∈ windows_after cacheLimit w0 ops → w.length ≤ cacheLimit * 2 := by
  intro ops
  induction ops with
  | nil => intro w0 w h; simp [windows_after] at h
  | cons ts rest ih =>
      intro w0 w h
      simp only [windows_after, List.mem_cons] at h
      cases h with
      | inl he => rw [he]; exact save_cache_window_length_le _ _
      | inr hm => exact ih _ _ hm

theorem save_cache_window_decodes (cacheLimit : Nat) (history : List RawEntry)
    (hv : ∀ e ∈ history, valid_entry e = true) :
    (save_cache cacheLimit history).window.map load_entry =
      history.drop (history.length - cacheLimit * 2) := by
  rw [save_cache_window_eq]
  exact history_roundtrip _ (fun e he => hv e (List.drop_subset _ _ he))

/-! ## Claim theorems -/

/-- C1: for every conversation id and every sequence of append-and-save
operations on it, after each `save_cache` call the persisted rolling window
holds at most `2 × CACHE_LIMIT` turn entries, and the retained entries are
the newest input entries in chronological order: the window is the encoding
of the final segment `history[-2*CACHE_LIMIT:]` of the appended history, and
for spec-conformant turns it decodes back to exactly that newest suffix. -/
theorem c1_window_bound_and_newest (cacheLimit : Nat) :
    (∀ (w0 : List EncEntry) (ops : List (List RawEntry)) (w : List EncEntry),
        w ∈ windows_after cacheLimit w0 ops → w.length ≤ cacheLimit * 2) ∧
    (∀ history : List RawEntry,
        (save_cache cacheLimit history).window =
          encode_history (history.drop (history.length - cacheLimit * 2))) ∧
    (∀ history : List RawEntry, (∀ e ∈ history, valid_entry e = true) →
        (save_cache cacheLimit history).window.map load_entry =
          history.drop (history.length - cacheLimit * 2)) :=
  ⟨fun w0 ops w h => mem_windows_after_length_le cacheLimit ops w0 w h,
   save_cache_window_eq cacheLimit,
   save_cache_window_decodes cacheLimit⟩

/-- A user turn with one text part (for concrete inputs). -/
def uTurn (s : String) : RawEntry := ⟨some "user", some [.text s]⟩

/-- A model turn with one text part (for concrete inputs). -/
def mTurn (s : String) : RawEntry := ⟨some "model", some [.text s]⟩

/-- Three append-and-save operations of one user/model pair each. -/
def c1ops : List (List RawEntry) :=
  [[uTurn "a", mTurn "b"], [uTurn "c", mTurn "d"], [uTurn "e", mTurn "f"]]

/-- The six turns appended across the three operations. -/
def c1hist : List RawEntry :=
  [uTurn "a", mTurn "b", uTurn "c", mTurn "d", uTurn "e", mTurn "f"]

theorem c1_window_bound_and_newest_witness :
    ((windows_after 1 [] c1ops).getLastD []).length ≤ 1 * 2 ∧
    (save_cache 1 c1hist).window.map load_entry =
      c1hist.drop (c1hist.length - 1 * 2) :=
  ⟨(c1_window_bound_and_newest 1).1 [] c1ops _ (by decide),
   (c1_window_bound_and_newest 1).2.2 c1hist (by decide)⟩

/-- C2: for every `save_cache` call that trims, the turns handed to the Deep
Cache compaction routine followed by the turns persisted in the window
(decoded back) are exactly the input history: no turn is lost. Stated for
spec-conformant turns (a Turn has a role and nonempty valid parts; the
source drops entries violating this before persistence). -/
theorem c2_no_data_loss (cacheLimit : Nat) (history : List RawEntry)
    (htrim : history.length > 2 * cacheLimit)
    (hv : ∀ e ∈ history, valid_entry e = true) :
    (save_cache cacheLimit history).handed ++
      (save_cache cacheLimit history).window.map load_entry = history := by
  have hkeep : history.length > cacheLimit * 2 := by omega
  rw [save_cache_handed_eq cacheLimit history hkeep,
      save_cache_window_decodes cacheLimit history hv]
  exact List.take_append_drop _ _

/-- A three-turn history exceeding the window bound for cache limit 1. -/
def c2hist : List RawEntry :=
  [uTurn "hello", mTurn "hi there", ⟨some "user", some [.inlineBytes "image/png" [0, 255]]⟩]

theorem c2_no_data_loss_witness :
    (save_cache 1 c2hist).handed ++
      (save_cache 1 c2hist).window.map load_entry = c2hist :=
  c2_no_data_loss 1 c2hist (by decide) (by decide)

/-- C6: loading the rolling window never propagates a parse error: a missing
or empty file yields the empty sequence with the file untouched, any file
whose read raises (in particular the unparseable one) is overwritten with an
empty persisted record and the empty sequence is returned, and a parsed
record is decoded. -/
theorem c6_load_self_healing :
    load_cache .absent = ([], .absent) ∧
    load_cache .empty = ([], .empty) ∧
    (∀ (f : CacheFile) (err : String), f ≠ .absent →
        read_and_parse f = .error err → load_cache f = ([], .stored [])) ∧
    (∀ es, load_cache (.stored es) = (es.map load_entry, .stored es)) := by
  refine ⟨rfl, rfl, ?_, fun es => rfl⟩
  intro f err hne hperr
  cases f with
  | absent => exact absurd rfl hne
  | empty => simp [read_and_parse] at hperr
  | corrupt => rfl
  | stored es => simp [read_and_parse] at hperr

theorem c6_load_self_healing_witness :
    load_cache .corrupt = ([], .stored []) :=
  c6_load_self_healing.2.2.1 .corrupt "json.JSONDecodeError: Expecting value"
    (by decide) rfl

/-- C7: a binary blob persisted as a base64 attachment part and read back
decodes to exactly the original bytes, and a persisted part whose decoding
fails is dropped alone, the remaining parts of the same turn being kept in
order. -/
theorem c7_attachment_roundtrip :
    (∀ (mime : String) (B : List Nat), (∀ b ∈ B, b < 256) →
        (encode_part (.inlineBytes mime B)).bind decode_part =
          some (RawPart.inlineBytes mime B)) ∧
    (∀ (l r : List EncPart) (p : EncPart), decode_part p = none →
        decoded_parts (l ++ p :: r) = decoded_parts l ++ decoded_parts r) := by
  constructor
  · intro mime B hB
    apply part_roundtrip
    simp only [valid_part, List.all_eq_true, decide_eq_true_eq]
    exact hB
  · intro l r p hp
    unfold decoded_parts
    rw [List.filterMap_append]
    simp [List.filterMap_cons, hp]

theorem c7_attachment_roundtrip_witness :
    (encode_part (.inlineBytes "image/png" [0, 127, 255])).bind decode_part =
      some (RawPart.inlineBytes "image/png" [0, 127, 255]) ∧
    decoded_parts ([EncPart.text "x"] ++ EncPart.inlineStr "image/png" "a" :: [EncPart.text "y"]) =
      decoded_parts [EncPart.text "x"] ++ decoded_parts [EncPart.text "y"] :=
  ⟨c7_attachment_roundtrip.1 "image/png" [0, 127, 255] (by decide),
   c7_attachment_roundtrip.2 [EncPart.text "x"] [EncPart.text "y"]
     (EncPart.inlineStr "image/png" "a") (by decide)⟩

/-- C9 counterexample: after a reset, loading the Deep Cache yields the
summary `some ""` — the empty string, not an absent (`none`) summary — since
`save_deep_cache(channel_id, None)` writes a record whose summary field is
the empty string. This falsifies the claim that reset-then-load yields an
absent long-term summary. -/
theorem c9_counterexample :
    (load_deep_cache (reset_conversation (CacheFile.absent, DeepFile.absent)).2).1 =
      some "" ∧ (some "" : Option String) ≠ none := by
  decide

/-- C9 amended: reset is idempotent — resetting twice leaves the stores in
the same state as resetting once — and loading after a reset yields the
empty rolling window and an empty-string summary, which every consumer
treats as absent (Python falsiness). -/
theorem c9_reset_idempotent :
    (∀ st : CacheFile × DeepFile,
        reset_conversation (reset_conversation st) = reset_conversation st) ∧
    (∀ st : CacheFile × DeepFile,
        (load_cache (reset_conversation st).1).1 = [] ∧
        (load_deep_cache (reset_conversation st).2).1 = some "" ∧
        summary_truthy (load_deep_cache (reset_conversation st).2).1 = false) :=
  ⟨fun _ => rfl, fun _ => ⟨rfl, rfl, rfl⟩⟩

/-! ## Dispatch lemmas -/

theorem is_error_of_contains_keyword (t kw : String) (hm : kw ∈ error_keywords)
    (hc : strContains t kw = true) : is_error_message t = true := by
  unfold is_error_message
  exact List.any_eq_true.mpr ⟨kw, hm, hc⟩

theorem is_error_of_contains_RE (t : String)
    (hc : strContains t ERROR_MSG_GEMINI_RESOURCE_EXHAUSTED = true) :
    is_error_message t = true :=
  is_error_of_contains_keyword _ _ (by simp [error_keywords]) hc

theorem gemini_try_secondary_length (cfg : ProviderModels) (calls : List String)
    (sOut : CallOutcome) (h : calls.length ≤ 1) :
    (gemini_try_secondary cfg calls sOut).1.length ≤ 2 := by
  unfold gemini_try_secondary
  cases cfg.secondary with
  | none => simpa using by omega
  | some s => simp only [List.length_append, List.length_singleton]; omega

theorem openai_try_secondary_length (cfg : ProviderModels) (calls : List String)
    (sOut : CallOutcome) (h : calls.length ≤ 1) :
    (openai_try_secondary cfg calls sOut).1.length ≤ 2 := by
  unfold openai_try_secondary
  cases cfg.secondary with
  | none => simpa using by omega
  | some s => simp only [List.length_append, List.length_singleton]; omega

theorem gemini_calls_le_two (cfg : ProviderModels) (pOut sOut : CallOutcome) :
    (gemini_generate_response cfg pOut sOut).1.length ≤ 2 := by
  obtain ⟨prim, sec⟩ := cfg
  cases prim with
  | none => exact gemini_try_secondary_length ⟨none, sec⟩ [] sOut (by simp)
  | some p =>
      cases pOut with
      | ret t =>
          cases h1 : is_error_message t with
          | false =>
              have he : gemini_generate_response ⟨some p, sec⟩ (.ret t) sOut =
                  ([p], (p, t)) := by simp [gemini_generate_response, h1]
              rw [he]; simp
          | true =>
              cases h2 : strContains t ERROR_MSG_GEMINI_RESOURCE_EXHAUSTED with
              | false =>
                  have he : gemini_generate_response ⟨some p, sec⟩ (.ret t) sOut =
                      ([p], (p, t)) := by simp [gemini_generate_response, h1, h2]
                  rw [he]; simp
              | true =>
                  have he : gemini_generate_response ⟨some p, sec⟩ (.ret t) sOut =
                      gemini_try_secondary ⟨some p, sec⟩ [p] sOut := by
                    simp [gemini_generate_response, h1, h2]
                  rw [he]
                  exact gemini_try_secondary_length _ [p] sOut (by simp)
      | exn rl m =>
          cases rl with
          | false => simp [gemini_generate_response]
          | true =>
              have he : gemini_generate_response ⟨some p, sec⟩ (.exn true m) sOut =
                  gemini_try_secondary ⟨some p, sec⟩ [p] sOut := by
                simp [gemini_generate_response]
              rw [he]
              exact gemini_try_secondary_length _ [p] sOut (by simp)

theorem openai_calls_le_two (cfg : ProviderModels) (pOut sOut : CallOutcome) :
    (openai_generate_response cfg pOut sOut).1.length ≤ 2 := by
  obtain ⟨prim, sec⟩ := cfg
  cases prim with
  | none => exact openai_try_secondary_length ⟨none, sec⟩ [] sOut (by simp)
  | some p =>
      cases pOut with
      | ret t => simp [openai_generate_response]
      | exn rl m =>
          cases hcond : (rl && sec.isSome && !(sec == some p)) with
          | false =>
              have he : openai_generate_response ⟨some p, sec⟩ (.exn rl m) sOut =
                  ([p], (p, m)) := by simp [openai_generate_response, hcond]
              rw [he]; simp
          | true =>
              have he : openai_generate_response ⟨some p, sec⟩ (.exn rl m) sOut =
                  openai_try_secondary ⟨some p, sec⟩ [p] sOut := by
                simp [openai_generate_response, hcond]
              rw [he]
              exact openai_try_secondary_length _ [p] sOut (by simp)

/-- The content parts of the C3 counterexample: one text and one image. -/
def c3cps : List RawPart := [RawPart.text "hi", RawPart.inlineBytes "image/png" [7]]

/-- C3 counterexample: two independent failures of the claim. First, the
Gemini dispatcher falls back to the secondary model on a rate-limit error
even when the configured secondary is identical to the primary — two calls
to `model-a` are issued — falsifying "fallback happens only under that
RateLimit-with-distinct-secondary condition". Second, the OpenAI-compatible
dispatcher's secondary call does not receive the same assembled context as
the primary call: with a vision primary (`pixtral-large`), a non-vision
secondary (`mistral-small`) and an image part, the secondary messages are
re-converted with the image stripped, falsifying "issues exactly one
secondary-model call with the same assembled context". -/
theorem c3_counterexample :
    (gemini_generate_response ⟨some "model-a", some "model-a"⟩
        (CallOutcome.ret ERROR_MSG_GEMINI_RESOURCE_EXHAUSTED) (CallOutcome.ret "ok") =
      (["model-a", "model-a"], ("model-a", "ok")) ∧
     (ProviderModels.mk (some "model-a") (some "model-a")).secondary =
       (ProviderModels.mk (some "model-a") (some "model-a")).primary) ∧
    (openai_dispatch_calls "SP" c3cps [] none
        ⟨some "pixtral-large", some "mistral-small"⟩ (CallOutcome.exn true "429") =
      [("pixtral-large",
        [OAIMessage.plain "system" "SP",
         OAIMessage.multi "user" [OAIContentItem.text "hi",
           OAIContentItem.imageUrl "data:image/png;base64,Bw=="]]),
       ("mistral-small",
        [OAIMessage.plain "system" "SP",
         OAIMessage.multi "user" [OAIContentItem.text "hi"]])] ∧
     ([OAIMessage.plain "system" "SP",
       OAIMessage.multi "user" [OAIContentItem.text "hi",
         OAIContentItem.imageUrl "data:image/png;base64,Bw=="]] : List OAIMessage) ≠
       [OAIMessage.plain "system" "SP",
        OAIMessage.multi "user" [OAIContentItem.text "hi"]]) := by
  refine ⟨⟨by decide, rfl⟩, by decide, by decide⟩

/-- C3 amended: a rate-limited primary call with a configured secondary
leads to exactly one secondary call whose result — success or error — is
returned verbatim, and never a third call (at most two calls are ever made).
The Gemini provider falls back whenever any secondary is configured, even
one identical to the primary, and passes the same assembled context
(identical content parts, history and summary) to the secondary call. The
OpenAI-compatible provider falls back only when the secondary differs from
the primary; its secondary call reuses the primary's assembled message list
unless the content parts carry image data and the secondary model is not
vision-capable, in which case the messages are re-assembled with the images
stripped. -/
theorem c3_fallback_exactly_once :
    (∀ (p s m : String) (sOut : CallOutcome),
        gemini_generate_response ⟨some p, some s⟩ (.exn true m) sOut =
          ([p, s], (s, outcome_text sOut))) ∧
    (∀ (p s t : String) (sOut : CallOutcome),
        strContains t ERROR_MSG_GEMINI_RESOURCE_EXHAUSTED = true →
        gemini_generate_response ⟨some p, some s⟩ (.ret t) sOut =
          ([p, s], (s, outcome_text sOut))) ∧
    (∀ (p s m : String) (sOut : CallOutcome), s ≠ p →
        openai_generate_response ⟨some p, some s⟩ (.exn true m) sOut =
          ([p, s], (s, outcome_text sOut))) ∧
    (∀ (p m : String) (sOut : CallOutcome),
        openai_generate_response ⟨some p, some p⟩ (.exn true m) sOut = ([p], (p, m))) ∧
    (∀ (cfg : ProviderModels) (pOut sOut : CallOutcome),
        (gemini_generate_response cfg pOut sOut).1.length ≤ 2 ∧
        (openai_generate_response cfg pOut sOut).1.length ≤ 2) ∧
    (∀ (sys : String) (cps : List RawPart) (hist : List RawEntry)
        (dcs : Option String) (p s m : String),
        gemini_dispatch_calls sys cps hist dcs ⟨some p, some s⟩ (.exn true m) =
          [(p, prepare_gemini_contents sys cps hist dcs true),
           (s, prepare_gemini_contents sys cps hist dcs true)]) ∧
    (∀ (sys : String) (cps : List RawPart) (hist : List RawEntry)
        (dcs : Option String) (p s t : String),
        strContains t ERROR_MSG_GEMINI_RESOURCE_EXHAUSTED = true →
        gemini_dispatch_calls sys cps hist dcs ⟨some p, some s⟩ (.ret t) =
          [(p, prepare_gemini_contents sys cps hist dcs true),
           (s, prepare_gemini_contents sys cps hist dcs true)]) ∧
    (∀ (sys : String) (cps : List RawPart) (hist : List RawEntry)
        (dcs : Option String) (p s m : String), s ≠ p →
        has_inline_data cps = false →
        openai_dispatch_calls sys cps hist dcs ⟨some p, some s⟩ (.exn true m) =
          [(p, convert_history_to_openai_chat sys cps hist dcs
              (is_vision_model (some p))),
           (s, convert_history_to_openai_chat sys cps hist dcs
              (is_vision_model (some p)))]) ∧
    (∀ (sys : String) (cps : List RawPart) (hist : List RawEntry)
        (dcs : Option String) (p s m : String), s ≠ p →
        has_inline_data cps = true → is_vision_model (some s) = false →
        openai_dispatch_calls sys cps hist dcs ⟨some p, some s⟩ (.exn true m) =
          [(p, convert_history_to_openai_chat sys cps hist dcs
              (is_vision_model (some p))),
           (s, convert_history_to_openai_chat sys cps hist dcs false)]) ∧
    (∀ (sys : String) (cps : List RawPart) (hist : List RawEntry)
        (dcs : Option String) (p s m : String), s ≠ p →
        has_inline_data cps = true → is_vision_model (some s) = true →
        openai_dispatch_calls sys cps hist dcs ⟨some p, some s⟩ (.exn true m) =
          [(p, convert_history_to_openai_chat sys cps hist dcs
              (is_vision_model (some p))),
           (s, convert_history_to_openai_chat sys cps hist dcs
              (is_vision_model (some p)))]) := by
  refine ⟨?_, ?_, ?_, ?_, fun cfg pOut sOut =>
    ⟨gemini_calls_le_two cfg pOut sOut, openai_calls_le_two cfg pOut sOut⟩,
    ?_, ?_, ?_, ?_, ?_⟩
  · intro p s m sOut
    simp [gemini_generate_response, gemini_try_secondary]
  · intro p s t sOut hc
    have herr := is_error_of_contains_RE t hc
    simp [gemini_generate_response, herr, hc, gemini_try_secondary]
  · intro p s m sOut hne
    have hb : ((some s : Option String) == some p) = false := by
      simp only [beq_eq_false_iff_ne, ne_eq, Option.some.injEq]
      exact hne
    simp [openai_generate_response, openai_try_secondary, hb]
  · intro p m sOut
    simp [openai_generate_response]
  · intro sys cps hist dcs p s m
    simp [gemini_dispatch_calls]
  · intro sys cps hist dcs p s t hc
    have herr := is_error_of_contains_RE t hc
    simp [gemini_dispatch_calls, herr, hc]
  · intro sys cps hist dcs p s m hne himg
    have hb : ((some s : Option String) == some p) = false := by
      simp only [beq_eq_false_iff_ne, ne_eq, Option.some.injEq]
      exact hne
    simp [openai_dispatch_calls, hb, himg]
  · intro sys cps hist dcs p s m hne himg hvis
    have hb : ((some s : Option String) == some p) = false := by
      simp only [beq_eq_false_iff_ne, ne_eq, Option.some.injEq]
      exact hne
    simp [openai_dispatch_calls, hb, himg, hvis]
  · intro sys cps hist dcs p s m hne himg hvis
    have hb : ((some s : Option String) == some p) = false := by
      simp only [beq_eq_false_iff_ne, ne_eq, Option.some.injEq]
      exact hne
    simp [openai_dispatch_calls, hb, himg, hvis]

theorem c3_fallback_exactly_once_witness :
    gemini_generate_response ⟨some "g-p", some "g-s"⟩
        (CallOutcome.exn true "quota") (CallOutcome.ret "ok") =
      (["g-p", "g-s"], ("g-s", "ok")) ∧
    openai_generate_response ⟨some "o-p", some "o-s"⟩
        (CallOutcome.exn true "limit") (CallOutcome.ret "fine") =
      (["o-p", "o-s"], ("o-s", "fine")) ∧
    gemini_dispatch_calls "SP" [RawPart.text "q"] [] none
        ⟨some "g-p", some "g-s"⟩ (CallOutcome.exn true "quota") =
      [("g-p", prepare_gemini_contents "SP" [RawPart.text "q"] [] none true),
       ("g-s", prepare_gemini_contents "SP" [RawPart.text "q"] [] none true)] ∧
    openai_dispatch_calls "SP" [RawPart.text "q"] [] none
        ⟨some "o-p", some "o-s"⟩ (CallOutcome.exn true "limit") =
      [("o-p", convert_history_to_openai_chat "SP" [RawPart.text "q"] [] none
          (is_vision_model (some "o-p"))),
       ("o-s", convert_history_to_openai_chat "SP" [RawPart.text "q"] [] none
          (is_vision_model (some "o-p")))] := by
  obtain ⟨h1, h2, h3, h4, h5, h6, h7, h8, h9, h10⟩ := c3_fallback_exactly_once
  exact ⟨h1 "g-p" "g-s" "quota" (.ret "ok"),
         h3 "o-p" "o-s" "limit" (.ret "fine") (by decide),
         h6 "SP" [RawPart.text "q"] [] none "g-p" "g-s" "quota",
         h8 "SP" [RawPart.text "q"] [] none "o-p" "o-s" "limit"
           (by decide) (by decide)⟩

/-- C5: when the primary call fails with an error that is not classified as
a rate limit — a non-rate-limit error text for Gemini, a non-rate-limit
exception for either provider — the secondary model is never invoked and the
primary error is surfaced as-is. -/
theorem c5_no_fallback_on_non_ratelimit :
    (∀ (p : String) (sec : Option String) (t : String) (sOut : CallOutcome),
        is_error_message t = true →
        strContains t ERROR_MSG_GEMINI_RESOURCE_EXHAUSTED = false →
        gemini_generate_response ⟨some p, sec⟩ (.ret t) sOut = ([p], (p, t))) ∧
    (∀ (p : String) (sec : Option String) (m : String) (sOut : CallOutcome),
        gemini_generate_response ⟨some p, sec⟩ (.exn false m) sOut = ([p], (p, m))) ∧
    (∀ (p : String) (sec : Option String) (m : String) (sOut : CallOutcome),
        openai_generate_response ⟨some p, sec⟩ (.exn false m) sOut = ([p], (p, m))) := by
  refine ⟨?_, ?_, ?_⟩
  · intro p sec t sOut herr hnc
    simp [gemini_generate_response, herr, hnc]
  · intro p sec m sOut
    simp [gemini_generate_response]
  · intro p sec m sOut
    simp [openai_generate_response]

theorem c5_no_fallback_on_non_ratelimit_witness :
    gemini_generate_response ⟨some "g-primary", some "g-secondary"⟩
        (CallOutcome.ret ERROR_MSG_GEMINI_INVALID_ARG) (CallOutcome.ret "ok") =
      (["g-primary"], ("g-primary", ERROR_MSG_GEMINI_INVALID_ARG)) :=
  c5_no_fallback_on_non_ratelimit.1 "g-primary" (some "g-secondary")
    ERROR_MSG_GEMINI_INVALID_ARG (.ret "ok") (by decide) (by decide)

/-- Strings do not concatenate to the empty string from a nonempty left
part. -/
theorem append_ne_empty (s t : String) (h : s ≠ "") : s ++ t ≠ "" := by
  intro hc
  apply h
  have hd := congrArg String.data hc
  rw [String.data_append] at hd
  apply String.ext
  exact (List.append_eq_nil.mp hd).1

/-- The merge prompt contains the existing summary as a substring. -/
theorem merge_prompt_contains_existing (S F : String) :
    strContains (merge_prompt S F) S = true := by
  unfold merge_prompt
  rw [show "\n以下の「既存の要約」と「新しい情報」を統合し、重複を排除し、関連情報をまとめ、一つの簡潔な要約を作成してください。箇条書き形式を維持してください。\n\n--- 既存の要約 ---\n"
      ++ S ++ "\n--- ここまで ---\n\n--- 新しい情報 ---\n" ++ F
      ++ "\n--- ここまで ---\n\n統合後の要約:\n" =
      "\n以下の「既存の要約」と「新しい情報」を統合し、重複を排除し、関連情報をまとめ、一つの簡潔な要約を作成してください。箇条書き形式を維持してください。\n\n--- 既存の要約 ---\n"
      ++ S ++ ("\n--- ここまで ---\n\n--- 新しい情報 ---\n" ++ F
      ++ "\n--- ここまで ---\n\n統合後の要約:\n") from by
    simp [String.append_assoc]]
  exact strContains_of_concat _ S _

/-- The merge prompt contains the newly extracted facts as a substring. -/
theorem merge_prompt_contains_new (S F : String) :
    strContains (merge_prompt S F) F = true := by
  unfold merge_prompt
  rw [show "\n以下の「既存の要約」と「新しい情報」を統合し、重複を排除し、関連情報をまとめ、一つの簡潔な要約を作成してください。箇条書き形式を維持してください。\n\n--- 既存の要約 ---\n"
      ++ S ++ "\n--- ここまで ---\n\n--- 新しい情報 ---\n" ++ F
      ++ "\n--- ここまで ---\n\n統合後の要約:\n" =
      ("\n以下の「既存の要約」と「新しい情報」を統合し、重複を排除し、関連情報をまとめ、一つの簡潔な要約を作成してください。箇条書き形式を維持してください。\n\n--- 既存の要約 ---\n"
      ++ S ++ "\n--- ここまで ---\n\n--- 新しい情報 ---\n")
      ++ F ++ "\n--- ここまで ---\n\n統合後の要約:\n" from by
    simp [String.append_assoc]]
  exact strContains_of_concat _ F _

/-- C4: in a Deep Cache compaction run with an existing nonempty summary S
and a successful extraction F, a successful merge call stores exactly the
merge output — computed from a prompt that contains both S and F — while a
failed merge call (error text, blank text, or a `None` result) stores
exactly F; S alone is never kept and the update is never dropped. -/
theorem c4_summary_monotonic_merge
    (oracle : String → Option String) (old_history : List RawEntry) (S F : String)
    (hfmt : pyStrip (format_history_for_prompt old_history) ≠ "")
    (hex : oracle (extract_prompt (format_history_for_prompt old_history)) = some F)
    (hF1 : pyStrip F ≠ "")
    (hF2 : strContains F "抽出情報なし" = false)
    (hF3 : is_error_message F = false)
    (hS1 : S ≠ "") (hS2 : pyStrip S ≠ "") :
    (∀ M, oracle (merge_prompt S F) = some M → pyStrip M ≠ "" →
        is_error_message M = false →
        update_deep_cache oracle (.stored (some S)) old_history =
          save_deep_cache (some M) ∧
        strContains (merge_prompt S F) S = true ∧
        strContains (merge_prompt S F) F = true) ∧
    (∀ M, oracle (merge_prompt S F) = some M →
        (pyStrip M = "" ∨ is_error_message M = true) →
        update_deep_cache oracle (.stored (some S)) old_history =
          save_deep_cache (some F)) ∧
    (oracle (merge_prompt S F) = none →
        update_deep_cache oracle (.stored (some S)) old_history =
          save_deep_cache (some F)) := by
  have e1 : (pyStrip (format_history_for_prompt old_history) == "") = false :=
    beq_eq_false_iff_ne.mpr hfmt
  have e2 : (pyStrip F == "") = false := beq_eq_false_iff_ne.mpr hF1
  have e3 : (S == "") = false := beq_eq_false_iff_ne.mpr hS1
  have e4 : (pyStrip S == "") = false := beq_eq_false_iff_ne.mpr hS2
  refine ⟨?_, ?_, ?_⟩
  · intro M hM hM1 hM2
    have e5 : (pyStrip M == "") = false := beq_eq_false_iff_ne.mpr hM1
    exact ⟨by simp [update_deep_cache, e1, hex, e2, hF2, hF3, load_deep_cache,
            e3, e4, hM, e5, hM2],
          merge_prompt_contains_existing S F, merge_prompt_contains_new S F⟩
  · intro M hM hMbad
    cases hMbad with
    | inl h =>
        have e5 : (pyStrip M == "") = true := beq_iff_eq.mpr h
        simp [update_deep_cache, e1, hex, e2, hF2, hF3, load_deep_cache,
          e3, e4, hM, e5]
    | inr h =>
        simp [update_deep_cache, e1, hex, e2, hF2, hF3, load_deep_cache,
          e3, e4, hM, h]
  · intro hM
    simp [update_deep_cache, e1, hex, e2, hF2, hF3, load_deep_cache,
      e3, e4, hM, show (pyStrip "" == "") = true from by decide]

/-- A one-line history whose rendered text is nonempty. -/
def c4hist : List RawEntry := [uTurn "hello"]

/-- An oracle giving extraction "F0" and merge result "M0". -/
def c4oracle : String → Option String :=
  fun p => if p = extract_prompt "User: hello" then some "F0" else some "M0"

/-- An oracle giving extraction "F0" and a failing (None) merge call. -/
def c4oracle2 : String → Option String :=
  fun p => if p = extract_prompt "User: hello" then some "F0" else none

set_option maxRecDepth 8192 in
theorem c4_summary_monotonic_merge_witness :
    update_deep_cache c4oracle (.stored (some "S0")) c4hist =
      save_deep_cache (some "M0") ∧
    update_deep_cache c4oracle2 (.stored (some "S0")) c4hist =
      save_deep_cache (some "F0") :=
  ⟨((c4_summary_monotonic_merge c4oracle c4hist "S0" "F0" (by decide) (by decide)
      (by decide) (by decide) (by decide) (by decide) (by decide)).1 "M0"
      (by decide) (by decide) (by decide)).1,
   (c4_summary_monotonic_merge c4oracle2 c4hist "S0" "F0" (by decide) (by decide)
      (by decide) (by decide) (by decide) (by decide) (by decide)).2.2 (by decide)⟩

/-- C8 counterexample: with a nonempty history, the first element of the
assembled Gemini bundle is a history turn that does not mention the
persona/system instruction — the persona is concatenated into the final user
content block instead — falsifying the claim that the persona appears first
in the bundle. -/
theorem c8_counterexample :
    (prepare_gemini_contents "PERSONA" [RawPart.text "hi"]
        [⟨some "user", some [RawPart.text "old"]⟩] (some "S") true).head? =
      some ⟨"user", [GPart.text "old"]⟩ ∧
    content_mentions ⟨"user", [GPart.text "old"]⟩ "PERSONA" = false := by
  decide

/-- C8 amended: the Gemini bundle places the rolling history turns first, in
chronological order, and ends with a single user content block whose text
concatenates, in this order: the persona/system instruction, the long-term
summary behind the section marker, and the new user text parts — with the
new attachment parts last. -/
theorem c8_bundle_order (sys S : String) (cps : List RawPart)
    (hist : List RawEntry) (hsys : sys ≠ "") (hS : S ≠ "")
    (hts : cps.filterMap (fun p => match p with
        | RawPart.text s => some s | _ => none) ≠ []) :
    prepare_gemini_contents sys cps hist (some S) true =
      history_to_gemini hist ++
        [⟨"user",
          GPart.text (sys ++ "\n\n" ++ DEEP_CACHE_MARKER ++ S ++ "\n\n" ++
            String.intercalate "\n" (cps.filterMap (fun p => match p with
              | RawPart.text s => some s | _ => none))) ::
          cps.filterMap (fun p => match p with
            | RawPart.inlineBytes m d => some (GPart.blob m d) | _ => none)⟩] := by
  have hsys' : (sys == "") = false := beq_eq_false_iff_ne.mpr hsys
  have hS' : (S == "") = false := beq_eq_false_iff_ne.mpr hS
  have hne1 : sys ++ "\n\n" ++ DEEP_CACHE_MARKER ++ S ≠ "" :=
    append_ne_empty _ _ (append_ne_empty _ _ (append_ne_empty _ _ hsys))
  have ht1 : (sys ++ "\n\n" ++ DEEP_CACHE_MARKER ++ S == "") = false :=
    beq_eq_false_iff_ne.mpr hne1
  have ht2 : (sys ++ "\n\n" ++ DEEP_CACHE_MARKER ++ S ++ "\n\n" ++
      String.intercalate "\n" (cps.filterMap (fun p => match p with
        | RawPart.text s => some s | _ => none)) == "") = false :=
    beq_eq_false_iff_ne.mpr (append_ne_empty _ _ (append_ne_empty _ _ hne1))
  have hcur : (cps.filterMap (fun p => match p with
      | RawPart.text s => some s | _ => none)).isEmpty = false := by
    cases hh : cps.filterMap (fun p => match p with
      | RawPart.text s => some s | _ => none) with
    | nil => exact absurd hh hts
    | cons a l => rfl
  simp [prepare_gemini_contents, hsys', hS', ht1, ht2, hcur]

theorem c8_bundle_order_witness :
    prepare_gemini_contents "PERSONA" [RawPart.text "hi", RawPart.inlineBytes "image/png" [7]]
        [⟨some "user", some [RawPart.text "old"]⟩] (some "S") true =
      history_to_gemini [⟨some "user", some [RawPart.text "old"]⟩] ++
        [⟨"user",
          GPart.text ("PERSONA" ++ "\n\n" ++ DEEP_CACHE_MARKER ++ "S" ++ "\n\n" ++
            String.intercalate "\n"
              ([RawPart.text "hi", RawPart.inlineBytes "image/png" [7]].filterMap
                (fun p => match p with | RawPart.text s => some s | _ => none))) ::
          [RawPart.text "hi", RawPart.inlineBytes "image/png" [7]].filterMap
            (fun p => match p with
              | RawPart.inlineBytes m d => some (GPart.blob m d) | _ => none)⟩] :=
  c8_bundle_order "PERSONA" "S" [RawPart.text "hi", RawPart.inlineBytes "image/png" [7]]
    [⟨some "user", some [RawPart.text "old"]⟩] (by decide) (by decide) (by decide)

/-- C10: a response text is classified as an error message whenever it
contains any member of the fixed keyword list — which includes the bare
English words Error, Failed, Limit, Rate, Invalid and Cannot — and such a
classification makes the caller skip appending the reply to the conversation
cache, makes the lowload path return `None`, makes a compaction run whose
extraction result is so classified leave the Deep Cache unchanged, and (for
a reply containing the rate-limit template) triggers the Gemini fallback. -/
theorem c10_keyword_error_classification :
    (∀ t kw, kw ∈ error_keywords → strContains t kw = true →
        is_error_message t = true) ∧
    ("Error" ∈ error_keywords ∧ "Failed" ∈ error_keywords ∧
      "Limit" ∈ error_keywords ∧ "Rate" ∈ error_keywords ∧
      "Invalid" ∈ error_keywords ∧ "Cannot" ∈ error_keywords) ∧
    (∀ (cacheLimit : Nat) (hist : List RawEntry) (up : List RawPart) (t : String),
        is_error_message t = true →
        update_cache_after_response cacheLimit hist up t = none) ∧
    (∀ t, is_error_message t = true → generate_lowload_response (.ret t) = none) ∧
    (∀ (oracle : String → Option String) (deep : DeepFile)
        (old_history : List RawEntry) (t : String),
        oracle (extract_prompt (format_history_for_prompt old_history)) = some t →
        is_error_message t = true →
        update_deep_cache oracle deep old_history = deep) ∧
    (∀ (p s t : String) (sOut : CallOutcome),
        strContains t ERROR_MSG_GEMINI_RESOURCE_EXHAUSTED = true →
        (gemini_generate_response ⟨some p, some s⟩ (.ret t) sOut).1 = [p, s]) := by
  refine ⟨is_error_of_contains_keyword, ?_, ?_, ?_, ?_, ?_⟩
  · refine ⟨?_, ?_, ?_, ?_, ?_, ?_⟩ <;> simp [error_keywords]
  · intro cacheLimit hist up t herr
    simp [update_cache_after_response, herr]
  · intro t herr
    simp [generate_lowload_response, herr]
  · intro oracle deep old_history t hex herr
    cases hht : (pyStrip (format_history_for_prompt old_history) == "") with
    | true => simp [update_deep_cache, hht]
    | false => simp [update_deep_cache, hht, hex, herr]
  · intro p s t sOut hc
    have herr := is_error_of_contains_RE t hc
    simp [gemini_generate_response, herr, hc, gemini_try_secondary]

/-- A benign reply that merely mentions one of the generic keywords. -/
def c10reply : String := "I Cannot say more about that"

theorem c10_keyword_error_classification_witness :
    is_error_message c10reply = true ∧
    update_cache_after_response 10 [] [RawPart.text "q"] c10reply = none ∧
    generate_lowload_response (.ret c10reply) = none := by
  have h := c10_keyword_error_classification.1 c10reply "Cannot"
    (by decide) (by decide)
  exact ⟨h,
    c10_keyword_error_classification.2.2.1 10 [] [RawPart.text "q"] c10reply h,
    c10_keyword_error_classification.2.2.2.1 c10reply h⟩

end Plana
